import Mathlib

/-!
Shallow embedding of `pulsarpy/backport_from_encode_portal.py`: the
Match-or-Create backport procedures (`biosample`, `donor`, `vendor`,
`treatment`, `document`, `crispr_modification`), the term resolvers
(`biosample_term_name`, `treatment_term_name`) and the name synthesizer
(`set_name`), together with theorems settling the specification claims.

Source records fetched from the ENCODE portal are modelled either as
association lists of string keys (`set_name`, which probes keys
dynamically) or as per-entity structures holding exactly the fields the
procedure reads.  The Pulsar ("Target") side is a database of tables of
records; `find_by` and `post` of the missing `pulsarpy.models` layer are
modelled from the spec's TargetClient interface: `Search` returns the
first record whose searched field matches, `Create` appends a record with
a fresh integer id.  Python exceptions (KeyError, IndexError, NameError on
an undefined variable, `raise Exception`) are an `Err`-valued `Except`.
-/

namespace Pulsarpy

/-! ### Property-name constants (source lines 20–23) -/

def ACCESSION_PROP : String := "accession"
def ALIASES_PROP : String := "aliases"
def UPSTREAM_PROP : String := "upstream_identifier"
def UUID_PROP : String := "uuid"

/-! ### Errors raised by the embedded code -/

inductive Err
  | notFound (id : String)
  | keyError (k : String)
  | indexError
  | typeError (msg : String)
  | nameError (v : String)
  | exn (msg : String)
deriving DecidableEq, Repr

/-! ### Dynamic records for `set_name`

`set_name` inspects an ENCODE record as a dictionary (`in` tests, key
subscripts), so here a record is an association list from keys to values;
a value is a string or a list of strings (the only shapes `set_name`
touches). -/

inductive Val
  | str (s : String)
  | strList (xs : List String)
deriving DecidableEq, Repr

abbrev DynRec := List (String × Val)

def lookupKey (rec : DynRec) (k : String) : Option Val :=
  (rec.find? (fun p => p.1 == k)).map (·.2)

def recKeys (rec : DynRec) : List String := rec.map (·.1)

/-! ### Python string splitting

`String.splitOn` in this toolchain is defined by well-founded recursion,
which the kernel cannot evaluate, so Python's `s.split(":")` is embedded
as a structurally recursive split over the string's character list.  Its
semantics match Python: `"" → [""]`, `"a:" → ["a", ""]`, no collapsing of
adjacent separators. -/

def pySplitAux (sep : Char) : List Char → List Char → List String
  | [], acc => [String.mk acc.reverse]
  | c :: cs, acc =>
    if c = sep then String.mk acc.reverse :: pySplitAux sep cs []
    else pySplitAux sep cs (c :: acc)

/-- Python `s.split(sep)` for a one-character separator. -/
def pySplit (s : String) (sep : Char) : List String := pySplitAux sep s.data []

/-- Source lines 31–59.  The `elif rec[UUID_PROP] in rec` branch is the
source's own text: it subscripts first (KeyError when `uuid` is absent)
and then tests the *value* for membership among the record's keys. -/
def set_name (rec : DynRec) : Except Err String :=
  match lookupKey rec ALIASES_PROP with
  | some (Val.strList (a :: _)) =>
    match (pySplit a ':')[1]? with
    | some m => Except.ok m
    | none => Except.error Err.indexError
  | some (Val.strList []) => Except.error Err.indexError
  | some (Val.str _) => Except.error (Err.typeError "string index")
  | none =>
    match lookupKey rec ACCESSION_PROP with
    | some (Val.str s) => Except.ok s
    | some _ => Except.error (Err.typeError "not a string")
    | none =>
      match lookupKey rec UUID_PROP with
      | none => Except.error (Err.keyError UUID_PROP)
      | some (Val.str u) =>
        if (recKeys rec).contains u then Except.ok u
        else Except.error (Err.exn "cant set name")
      | some _ => Except.error (Err.typeError "unhashable")

def joinColon : List String → String
  | [] => ""
  | [x] => x
  | x :: xs => x ++ ":" ++ joinColon xs

/-- Modelled from the spec (4.2 step 1): strip the namespace prefix of an
alias, everything up to and including the first `:`, and keep all the
rest.  Used only to compare `set_name` against the spec's words. -/
def specNamespaceStripped (s : String) : String :=
  match pySplit s ':' with
  | [] => s
  | [x] => x
  | _ :: rest => joinColon rest

example : pySplit "lab:a:b" ':' = ["lab", "a", "b"] := by decide
example : specNamespaceStripped "lab:a:b" = "a:b" := by decide
example : set_name [("aliases", Val.strList ["lab:a:b"])] = Except.ok "a" := rfl
example : set_name [("uuid", Val.str "7e1c2a")] = Except.error (Err.exn "cant set name") := rfl

/-! ### Pulsar (Target) side: records, tables, search and create

`pulsarpy.models` is not among the source files; its `find_by` and `post`
are modelled from the spec's TargetClient interface (§6): `Search` over a
value set returns zero-or-one record, `Create` appends a payload under a
fresh integer id and returns it.  A payload value is a string, a
rational number, an integer id, a list of ids, or Python `None` (what
`rec.get(...)` contributes for an absent optional field). -/

inductive PVal
  | vs (s : String)
  | vq (q : ℚ)
  | vn (n : Nat)
  | vids (ids : List Nat)
  | vnone
deriving DecidableEq, Repr

structure TRec where
  id : Nat
  fields : List (String × PVal)
deriving DecidableEq, Repr

def fieldOf (r : TRec) (k : String) : Option PVal :=
  (r.fields.find? (fun p => p.1 == k)).map (·.2)

/-- One table per Pulsar model touched by the backport procedures. -/
structure DB where
  biosamples : List TRec := []
  donors : List TRec := []
  vendors : List TRec := []
  treatments : List TRec := []
  btns : List TRec := []
  ttns : List TRec := []
  biosampleTypes : List TRec := []
  ontologies : List TRec := []
  concUnits : List TRec := []
  crisprs : List TRec := []
  nextId : Nat := 1
deriving DecidableEq, Repr

/-- `Model.find_by({upstream_identifier: [candidates]})`: first record of
the table whose `upstream_identifier` equals one of the candidates. -/
def find_by_upstream (tbl : List TRec) (cands : List String) : Option TRec :=
  tbl.find? (fun r =>
    match fieldOf r UPSTREAM_PROP with
    | some (PVal.vs u) => cands.contains u
    | _ => false)

/-- `Model.find_by({k: v})` for a single string-valued key. -/
def find_by_str (tbl : List TRec) (k v : String) : Option TRec :=
  tbl.find? (fun r => fieldOf r k == some (PVal.vs v))

/-! ### ENCODE (Source) side: per-entity records and the fetch environment

Each structure holds exactly the fields the corresponding backport
procedure reads; fields read with `rec.get(...)` are `Option`s, fields
subscripted unconditionally are plain.  A biosample's `treatments` list
is modelled by the `uuid` each element contributes (the source reads only
`treat["uuid"]`), and `genetic_modifications` by the `accession` each
element contributes (the source reads only `g["accession"]`). -/

structure DonorRec where
  aliases : List String
  accession : String
  uuid : String
  atId : String
  age : Option String := none
  sex : Option String := none
deriving DecidableEq, Repr

structure VendorRec where
  name : String
  uuid : String
  atId : String
  description : String
  url : String
  aliases : List String := []
deriving DecidableEq, Repr

structure TreatRec where
  aliases : List String
  uuid : String
  atId : String
  documents : List String := []
  amount : ℚ
  amount_units : String
  duration : ℚ
  duration_units : String
  temperature : Option ℚ := none
  temperature_units : Option String := none
  treatment_term_name : String
  treatment_term_id : String
  treatment_type : String
deriving DecidableEq, Repr

structure GmRec where
  accession : String
  method : String
deriving DecidableEq, Repr

structure BioRec where
  aliases : List String
  accession : String
  uuid : String
  atId : String
  biosample_term_name : String
  biosample_term_id : String
  biosample_type : String
  date_obtained : Option String := none
  culture_harvest_date : Option String := none
  description : Option String := none
  donor : String
  lot_id : Option String := none
  nih_institutional_certification : Option String := none
  preservation_method : Option String := none
  passage_number : Option String := none
  source : String
  product_id : Option String := none
  treatments : List String := []
  genetic_modifications : List String := []
deriving DecidableEq, Repr

/-- `ENC_CONN.get(rec_id, ignore404=False)`, modelled per the spec's
SourceClient interface as a lookup keyed by the identifier the caller
passes; a missing record is the 404 error. -/
structure Env where
  bioRecs : List (String × BioRec) := []
  donorRecs : List (String × DonorRec) := []
  vendorRecs : List (String × VendorRec) := []
  treatRecs : List (String × TreatRec) := []
  gmRecs : List (String × GmRec) := []
deriving Repr

def getRec {α : Type} (l : List (String × α)) (k : String) : Option α :=
  (l.find? (fun p => p.1 == k)).map (·.2)

/-- Python `None` vs value for an optional payload entry built with
`rec.get(...)`. -/
def optS : Option String → PVal
  | some s => PVal.vs s
  | none => PVal.vnone

/-! ### Candidate identifier lists (the value sets searched on
`upstream_identifier`) -/

/-- Source line 82: `[*aliases, accession, rec[UUID_PROP], rec["@id"]]`. -/
def biosample_candidates (r : BioRec) : List String :=
  r.aliases ++ [r.accession, r.uuid, r.atId]

/-- Source line 250: `[accession, *aliases]`. -/
def donor_candidates (r : DonorRec) : List String :=
  r.accession :: r.aliases

/-- Source line 375: `[name, uuid, rec["@id"]]`. -/
def vendor_candidates (r : VendorRec) : List String :=
  [r.name, r.uuid, r.atId]

/-- Source line 286: `[*aliases, rec[UUID_PROP], rec["@id"]]`. -/
def treatment_candidates (r : TreatRec) : List String :=
  r.aliases ++ [r.uuid, r.atId]

/-- Modelled from the spec (4.1): all aliases, then accession, then uuid,
then `@id`, each group contributing only when present on the record.
Used only to compare the source's candidate lists against the spec. -/
def specResolveCandidates (aliases : List String)
    (accession uuid atId : Option String) : List String :=
  aliases ++ accession.toList ++ uuid.toList ++ atId.toList

/-! ### The backport procedures

Each procedure takes the fetch environment, the identifier and the
current Pulsar database and returns the outcome together with the
database after whatever side effects happened before the outcome (a
Python exception leaves earlier `post`s in place, so errors carry the
current database too). -/

/-- `encode_utils.utils.strip_alias_prefix`, a library outside this
repository.  Modelled from the spec (4.2): the namespace prefix of the
alias, up to and including the first `:`, is stripped. -/
def strip_alias_pfx (a : String) : String := specNamespaceStripped a

/-- Source lines 230–262 (`donor`). -/
def donor (env : Env) (rec_id : String) (db : DB) : Except Err TRec × DB :=
  match getRec env.donorRecs rec_id with
  | none => (Except.error (Err.notFound rec_id), db)
  | some rec =>
    match find_by_upstream db.donors (donor_candidates rec) with
    | some r => (Except.ok r, db)
    | none =>
      match rec.aliases with
      | [] => (Except.error Err.indexError, db)  -- line 261: aliases[0]
      | a0 :: _ =>
        let payload :=
          (match rec.age with
           | some a => [("age", PVal.vs a)]
           | none => []) ++
          (match rec.sex with
           | some s => [("gender", PVal.vs s)]
           | none => []) ++
          [(UPSTREAM_PROP, PVal.vs rec.accession),
           ("name", PVal.vs (strip_alias_pfx a0))]
        let r : TRec := ⟨db.nextId, payload⟩
        (Except.ok r, { db with donors := db.donors ++ [r], nextId := db.nextId + 1 })

/-- Source lines 355–383 (`vendor`). -/
def vendor (env : Env) (rec_id : String) (db : DB) : Except Err TRec × DB :=
  match getRec env.vendorRecs rec_id with
  | none => (Except.error (Err.notFound rec_id), db)
  | some rec =>
    match find_by_upstream db.vendors (vendor_candidates rec) with
    | some r => (Except.ok r, db)
    | none =>
      let payload :=
        [("description", PVal.vs rec.description),
         ("name", PVal.vs rec.name),
         (UPSTREAM_PROP, PVal.vs rec.atId),
         ("url", PVal.vs rec.url)]
      let r : TRec := ⟨db.nextId, payload⟩
      (Except.ok r, { db with vendors := db.vendors ++ [r], nextId := db.nextId + 1 })

/-- Source lines 194–228 (`document`).  Line 209 raises before anything
else runs, and its message formats the local variable `rec`, which is
only assigned on line 210, so the function always fails with a reference
to an unassigned name; everything below line 209 is unreachable. -/
def document (_env : Env) (_rec_id : String) (db : DB) : Except Err TRec × DB :=
  (Except.error (Err.nameError "rec"), db)

/-- Source lines 293–294: `for doc in documents: document(doc)` — the
return value is discarded, exceptions propagate. -/
def docLoop (env : Env) : List String → DB → Except Err Unit × DB
  | [], db => (Except.ok (), db)
  | d :: ds, db =>
    match document env d db with
    | (Except.error e, db') => (Except.error e, db')
    | (Except.ok _, db') => docLoop env ds db'

/-- Source lines 329–353 (`treatment_term_name`).  No ontology/category
lookup appears anywhere in this function; the payload is only
`{name, accession}`.  `find_by`/`post` cannot themselves fail here, so the
function is total. -/
def treatment_term_name (tname tid : String) (db : DB) : TRec × DB :=
  let payload := [("name", PVal.vs tname), (ACCESSION_PROP, PVal.vs tid)]
  match find_by_str db.ttns ACCESSION_PROP tid with
  | some r => (r, db)
  | none =>
    let r : TRec := ⟨db.nextId, payload⟩
    (r, { db with ttns := db.ttns ++ [r], nextId := db.nextId + 1 })

/-- Source lines 165–191 (`biosample_term_name`).  The parent ontology is
looked up (line 186) *before* the accession search, and a missing parent
is a `TypeError` (`None["id"]`); the payload carries
`biosample_ontology_id`. -/
def biosample_term_name (bname bid : String) (db : DB) : Except Err TRec × DB :=
  let ontology_name := (pySplit bid ':').headD ""  -- split(":")[0]; never empty
  match find_by_str db.ontologies "name" ontology_name with
  | none => (Except.error (Err.typeError "NoneType is not subscriptable"), db)
  | some ont =>
    let payload :=
      [("name", PVal.vs bname),
       (ACCESSION_PROP, PVal.vs bid),
       ("biosample_ontology_id", PVal.vn ont.id)]
    match find_by_str db.btns ACCESSION_PROP bid with
    | some r => (Except.ok r, db)
    | none =>
      let r : TRec := ⟨db.nextId, payload⟩
      (Except.ok r, { db with btns := db.btns ++ [r], nextId := db.nextId + 1 })

/-- `pulsarpy.utils.kelvin_to_celsius`, a file outside src.  Modelled
from the spec (4.3): `celsius = kelvin − 273.15`. -/
def kelvin_to_celsius (k : ℚ) : ℚ := k - 27315 / 100

/-- `pulsarpy.utils.fahrenheit_to_celsius`, a file outside src.  Modelled
from the spec (4.3): `celsius = (f − 32) × 5/9`. -/
def fahrenheit_to_celsius (f : ℚ) : ℚ := (f - 32) * 5 / 9

/-- Source lines 309–317, the temperature block of `treatment`.  Returns
`(assigned, converted)`: `converted` is the local `temp` after the unit
branches, while `assigned` is what line 317 actually stores in the
payload — `rec[temp_prop_name]`, the unconverted source value. -/
def tempStep (rec : TreatRec) : Except Err (Option (ℚ × ℚ)) :=
  match rec.temperature with
  | none => Except.ok none
  | some t =>
    match rec.temperature_units with
    | none => Except.error (Err.keyError "temperature_units")  -- line 312
    | some units =>
      let temp :=
        if units == "Kelvin" then kelvin_to_celsius t
        else if units == "Fahrenheit" then fahrenheit_to_celsius t
        else t
      Except.ok (some (t, temp))

/-- Source lines 264–327 (`treatment`).  On a search miss the create
branch runs the document loop, looks up the concentration unit, builds
the payload (via `treatment_term_name`, whose `post` persists even though
the branch then fails), and finally executes line 326,
`euu.strip_alias_prefix(upstream)`, which reads a variable that no
statement ever assigned: a NameError.  Line 327's
`models.Treatment.post(payload)` is unreachable. -/
def treatment (env : Env) (rec_id : String) (db : DB) : Except Err TRec × DB :=
  match getRec env.treatRecs rec_id with
  | none => (Except.error (Err.notFound rec_id), db)
  | some rec =>
    match find_by_upstream db.treatments (treatment_candidates rec) with
    | some r => (Except.ok r, db)
    | none =>
      match docLoop env rec.documents db with
      | (Except.error e, db1) => (Except.error e, db1)
      | (Except.ok _, db1) =>
        let upstream_identifier :=
          match rec.aliases with
          | a :: _ => a
          | [] => rec.uuid
        match find_by_str db1.concUnits "name" rec.amount_units with
        | none =>
          (Except.error (Err.exn ("ConcentrationUnit " ++ rec.amount_units ++
            " could not be found")), db1)
        | some cu =>
          match tempStep rec with
          | Except.error e => (Except.error e, db1)
          | Except.ok tf =>
            let (ttnRec, db2) :=
              treatment_term_name rec.treatment_term_name rec.treatment_term_id db1
            let _payload :=
              [(UPSTREAM_PROP, PVal.vs upstream_identifier),
               ("concentration", PVal.vq rec.amount),
               ("concentration_unit_id", PVal.vn cu.id),
               ("duration", PVal.vq rec.duration),
               ("duration_units", PVal.vs rec.duration_units)] ++
              (match tf with
               | some (assigned, _converted) => [("temperature", PVal.vq assigned)]
               | none => []) ++
              [("treatment_term_name_id", PVal.vn ttnRec.id),
               ("treatment_type", PVal.vs rec.treatment_type)]
            (Except.error (Err.nameError "upstream"), db2)

/-- Source line 147: `crispr_modification` raises unconditionally; the
match-or-create body below that line is unreachable. -/
def crispr_modification (_pulsar_biosample_id : Nat) (_gm : GmRec) (db : DB) :
    Except Err TRec × DB :=
  (Except.error (Err.exn "CRISPR backport not implemented"), db)

/-- Source lines 118–124: for each genetic modification, fetch it, skip
it unless `method == "CRISPR"`, otherwise back it up against the new
biosample id. -/
def gmLoop (env : Env) (bioId : Nat) : List String → DB → Except Err Unit × DB
  | [], db => (Except.ok (), db)
  | g :: gs, db =>
    match getRec env.gmRecs g with
    | none => (Except.error (Err.notFound g), db)
    | some gm =>
      if gm.method != "CRISPR" then gmLoop env bioId gs db
      else
        match crispr_modification bioId gm db with
        | (Except.error e, db') => (Except.error e, db')
        | (Except.ok _, db') => gmLoop env bioId gs db'

/-- Source lines 107–111: back up each treatment by its `uuid`, collect
the resulting Pulsar ids in the source order. -/
def treatLoop (env : Env) : List String → DB → Except Err (List Nat) × DB
  | [], db => (Except.ok [], db)
  | t :: ts, db =>
    match treatment env t db with
    | (Except.error e, db') => (Except.error e, db')
    | (Except.ok r, db') =>
      match treatLoop env ts db' with
      | (Except.error e, db'') => (Except.error e, db'')
      | (Except.ok ids, db'') => (Except.ok (r.id :: ids), db'')

/-- The dictionary view of a biosample record that `set_name(rec)` on
line 87 probes: the three identifying keys (all unconditionally present,
since lines 79–82 subscripted them already). -/
def bioNameRec (rec : BioRec) : DynRec :=
  [("aliases", Val.strList rec.aliases),
   ("accession", Val.str rec.accession),
   ("uuid", Val.str rec.uuid)]

/-- Source lines 85–114 of `biosample`: the create branch, from payload
assembly through `models.Biosample.post`.  Dependency calls happen in
source order: `biosample_term_name` (line 90), `BiosampleType` lookup
(line 93, a missing type is `None["id"]`), `donor` (line 99), `vendor`
(line 104), the treatment loop (lines 109–111), then the post. -/
def biosample_create (env : Env) (rec : BioRec) (db : DB) : Except Err TRec × DB :=
  match set_name (bioNameRec rec) with
  | Except.error e => (Except.error e, db)
  | Except.ok nm =>
    match biosample_term_name rec.biosample_term_name rec.biosample_term_id db with
    | (Except.error e, db1) => (Except.error e, db1)
    | (Except.ok btnRec, db1) =>
      match find_by_str db1.biosampleTypes "name" rec.biosample_type with
      | none => (Except.error (Err.typeError "NoneType is not subscriptable"), db1)
      | some bt =>
        match donor env rec.donor db1 with
        | (Except.error e, db2) => (Except.error e, db2)
        | (Except.ok dRec, db2) =>
          match vendor env rec.source db2 with
          | (Except.error e, db3) => (Except.error e, db3)
          | (Except.ok vRec, db3) =>
            match treatLoop env rec.treatments db3 with
            | (Except.error e, db4) => (Except.error e, db4)
            | (Except.ok tids, db4) =>
              let date_obtained :=
                match rec.date_obtained with
                | some d => some d
                | none => rec.culture_harvest_date
              let payload :=
                [(UPSTREAM_PROP, PVal.vs rec.accession),
                 ("name", PVal.vs nm),
                 ("biosample_term_name_id", PVal.vn btnRec.id),
                 ("biosample_type_id", PVal.vn bt.id),
                 ("date_biosample_taken", optS date_obtained),
                 ("description", optS rec.description),
                 ("donor_id", PVal.vn dRec.id),
                 ("lot_identifier", optS rec.lot_id),
                 ("nih_institutional_certification",
                  optS rec.nih_institutional_certification),
                 ("tissue_preservation_method", optS rec.preservation_method),
                 ("passage_number", optS rec.passage_number),
                 ("vendor_id", PVal.vn vRec.id),
                 ("vendor_product_identifier", optS rec.product_id),
                 ("treatment_ids", PVal.vids tids)]
              let r : TRec := ⟨db4.nextId, payload⟩
              (Except.ok r,
               { db4 with biosamples := db4.biosamples ++ [r], nextId := db4.nextId + 1 })

/-- Source lines 61–125 (`biosample`): fetch, match-or-create, then the
genetic-modification pass against the freshly posted record. -/
def biosample (env : Env) (rec_id : String) (db : DB) : Except Err TRec × DB :=
  match getRec env.bioRecs rec_id with
  | none => (Except.error (Err.notFound rec_id), db)
  | some rec =>
    match find_by_upstream db.biosamples (biosample_candidates rec) with
    | some r => (Except.ok r, db)
    | none =>
      match biosample_create env rec db with
      | (Except.error e, db') => (Except.error e, db')
      | (Except.ok pr, db') =>
        match gmLoop env pr.id rec.genetic_modifications db' with
        | (Except.error e, db'') => (Except.error e, db'')
        | (Except.ok _, db'') => (Except.ok pr, db'')

/-! ### Concrete fixtures used by counterexamples and witnesses -/

/-- A treatment record whose identifiers and dependencies are all
resolvable: one alias, no documents, a concentration unit that exists in
Pulsar, no temperature. -/
def trecT : TreatRec :=
  { aliases := ["lab:t1"], uuid := "u-t1", atId := "/treatments/u-t1/",
    amount := 1, amount_units := "mM", duration := 2, duration_units := "hour",
    treatment_term_name := "estradiol", treatment_term_id := "CHEBI:23965",
    treatment_type := "chemical" }

/-- The same treatment but linking one document. -/
def trecT6 : TreatRec := { trecT with documents := ["doc1"] }

def envT : Env := { treatRecs := [("u-t1", trecT), ("u-t6", trecT6)] }

/-- A Pulsar database holding only the concentration unit `trecT` needs. -/
def dbT : DB := { concUnits := [⟨1, [("name", PVal.vs "mM")]⟩], nextId := 2 }

def donorRecD : DonorRec :=
  { aliases := ["lab:d1"], accession := "ENCDO1", uuid := "u-d1",
    atId := "/human-donors/ENCDO1/" }

def vendorRecV : VendorRec :=
  { name := "acme", uuid := "u-v1", atId := "/sources/acme/",
    description := "vendor", url := "http://acme.example" }

/-- A biosample whose donor and vendor are already backported, whose
biosample type and parent ontology exist, with no treatments and no
genetic modifications. -/
def bioRecB : BioRec :=
  { aliases := ["lab:b1"], accession := "ENCBS1", uuid := "u-b1",
    atId := "/biosamples/ENCBS1/", biosample_term_name := "liverX",
    biosample_term_id := "UBERON:2107", biosample_type := "tissue",
    donor := "d1", source := "v1" }

/-- The fetch environment: `b1` has no genetic modifications, `b2` has
two CRISPR ones, `b3` has one. -/
def envB : Env :=
  { bioRecs := [("b1", bioRecB),
                ("b2", { bioRecB with genetic_modifications := ["gm1", "gm2"] }),
                ("b3", { bioRecB with genetic_modifications := ["gm1"] })],
    donorRecs := [("d1", donorRecD)], vendorRecs := [("v1", vendorRecV)],
    gmRecs := [("gm1", ⟨"gm1", "CRISPR"⟩), ("gm2", ⟨"gm2", "CRISPR"⟩)] }

/-- Pulsar already holds the donor, the vendor, the biosample type and
the `UBERON` ontology, but not the biosample itself. -/
def dbB : DB :=
  { donors := [⟨1, [("upstream_identifier", PVal.vs "ENCDO1")]⟩],
    vendors := [⟨2, [("upstream_identifier", PVal.vs "/sources/acme/")]⟩],
    biosampleTypes := [⟨3, [("name", PVal.vs "tissue")]⟩],
    ontologies := [⟨4, [("name", PVal.vs "UBERON")]⟩],
    nextId := 5 }

def donorRecW : DonorRec :=
  { aliases := ["lab:d9"], accession := "ENCDO9", uuid := "u-d9",
    atId := "/human-donors/ENCDO9/" }

def envW : Env := { donorRecs := [("d9", donorRecW)] }

/-! ### Helper lemmas shared by the claim theorems -/

theorem docLoop_db_eq (env : Env) (ds : List String) (db : DB) :
    (docLoop env ds db).2 = db := by
  cases ds <;> rfl

theorem ttn_treatments_eq (tname tid : String) (db : DB) :
    (treatment_term_name tname tid db).2.treatments = db.treatments := by
  unfold treatment_term_name
  cases h : find_by_str db.ttns ACCESSION_PROP tid <;> rfl

theorem gmLoop_db_eq (env : Env) (bioId : Nat) (gms : List String) (db : DB) :
    (gmLoop env bioId gms db).2 = db := by
  induction gms generalizing db with
  | nil => rfl
  | cons g gs ih =>
    unfold gmLoop
    cases hg : getRec env.gmRecs g with
    | none => rfl
    | some gm =>
      by_cases hm : gm.method = "CRISPR"
      · simp [hm, crispr_modification]
      · simp only [bne_iff_ne, ne_eq, hm, not_false_eq_true, if_pos]
        exact ih db

/-! ### Claim theorems -/

/-- Claim C1 (code bug evidence): on a fresh Pulsar database, backporting
an unmatched treatment raises the undefined-variable error at the name
assignment (source line 326) before `models.Treatment.post` is reached,
creates no Treatment record, and a second invocation fails identically —
so the claimed one-Create idempotent pair of invocations never happens
for the Treatment kind. -/
theorem treatment_not_idempotent_concrete :
    (treatment envT "u-t1" dbT).1 = Except.error (Err.nameError "upstream") ∧
    (treatment envT "u-t1" dbT).2.treatments = [] ∧
    (treatment envT "u-t1" ((treatment envT "u-t1" dbT).2)).1 =
      Except.error (Err.nameError "upstream") :=
  ⟨rfl, rfl, rfl⟩

/-- Claim C2 (counterexample): for the first alias `"lab:a:b"`,
`set_name` returns only the segment between the first and second `:`,
not everything after the first `:` as the claim states. -/
theorem set_name_not_namespace_stripped :
    set_name [("aliases", Val.strList ["lab:a:b"])] = Except.ok "a" ∧
    specNamespaceStripped "lab:a:b" = "a:b" ∧
    set_name [("aliases", Val.strList ["lab:a:b"])] ≠
      Except.ok (specNamespaceStripped "lab:a:b") := by
  refine ⟨rfl, rfl, fun h => ?_⟩
  rw [show specNamespaceStripped "lab:a:b" = "a:b" from rfl] at h
  exact absurd (Except.ok.inj h) (by decide)

/-- Claim C2 (amended): for every record whose `aliases` key holds a
non-empty list, `set_name` returns the *second* `:`-separated segment of
the first alias (the text strictly between the first `:` and the next
`:`, when one exists). -/
theorem set_name_second_colon_segment (rec : DynRec) (a : String)
    (rest : List String) (p m : String) (ms : List String)
    (h1 : lookupKey rec ALIASES_PROP = some (Val.strList (a :: rest)))
    (h2 : pySplit a ':' = p :: m :: ms) :
    set_name rec = Except.ok m := by
  unfold set_name
  simp [h1, h2]

/-- Witness for `set_name_second_colon_segment`. -/
theorem set_name_second_colon_segment_witness :
    set_name [("aliases", Val.strList ["lab:x9"])] = Except.ok "x9" :=
  set_name_second_colon_segment _ "lab:x9" [] "lab" "x9" [] rfl rfl

/-- Claim C3 (counterexample): the donor search candidates are built as
`[accession, *aliases]` — the accession first — not in the spec's
aliases-first order, and the donor's uuid and `@id` never enter the
list even though the record carries them. -/
theorem donor_candidate_order_counterexample :
    donor_candidates donorRecD = ["ENCDO1", "lab:d1"] ∧
    specResolveCandidates donorRecD.aliases (some donorRecD.accession)
        (some donorRecD.uuid) (some donorRecD.atId) =
      ["lab:d1", "ENCDO1", "u-d1", "/human-donors/ENCDO1/"] ∧
    donor_candidates donorRecD ≠
      specResolveCandidates donorRecD.aliases (some donorRecD.accession)
        (some donorRecD.uuid) (some donorRecD.atId) :=
  ⟨rfl, rfl, by decide⟩

/-- Claim C3 (amended): the candidate lists actually searched are:
biosample `aliases ++ [accession, uuid, @id]` (the spec's order), donor
`accession :: aliases`, vendor `[name, uuid, @id]`, treatment
`aliases ++ [uuid, @id]`. -/
theorem backport_candidate_lists (br : BioRec) (dr : DonorRec)
    (vr : VendorRec) (tr : TreatRec) :
    biosample_candidates br =
      specResolveCandidates br.aliases (some br.accession) (some br.uuid)
        (some br.atId) ∧
    donor_candidates dr = dr.accession :: dr.aliases ∧
    vendor_candidates vr = [vr.name, vr.uuid, vr.atId] ∧
    treatment_candidates tr =
      specResolveCandidates tr.aliases none (some tr.uuid) (some tr.atId) := by
  refine ⟨?_, rfl, rfl, ?_⟩ <;>
    simp [biosample_candidates, treatment_candidates, specResolveCandidates]

/-- Claim C5 (code bug evidence): in the temperature block of
`treatment`, the converted Celsius value is computed into the local
`temp` (here the second component of `tempStep`'s result) but line 317
stores the raw source value `rec["temperature"]` (the first component) in
the payload, so a Kelvin temperature of 300 is stored as 300, not as the
26.85 °C the claim requires; likewise 212 °F is stored as 212, not 100. -/
theorem treatment_temperature_not_normalized :
    tempStep { trecT with temperature := some 300,
                          temperature_units := some "Kelvin" } =
      Except.ok (some (300, kelvin_to_celsius 300)) ∧
    kelvin_to_celsius 300 = 2685 / 100 ∧
    (300 : ℚ) ≠ 2685 / 100 ∧
    tempStep { trecT with temperature := some 212,
                          temperature_units := some "Fahrenheit" } =
      Except.ok (some (212, fahrenheit_to_celsius 212)) ∧
    fahrenheit_to_celsius 212 = 100 ∧
    (212 : ℚ) ≠ 100 := by
  refine ⟨rfl, ?_, ?_, rfl, ?_, ?_⟩ <;> norm_num [kelvin_to_celsius, fahrenheit_to_celsius]

/-- Claim C6 (counterexample): a treatment that links one document and is
not matched in Pulsar aborts with the document backport's error and
leaves the database untouched — the document failure does prevent the
Treatment record from being created. -/
theorem treatment_document_failure_blocks_create :
    treatment envT "u-t6" dbT = (Except.error (Err.nameError "rec"), dbT) ∧
    (treatment envT "u-t6" dbT).2.treatments = [] :=
  ⟨rfl, rfl⟩

/-- Claim C6 (amended): the treatment backport calls the document
backport for each linked document discarding only its return value; the
document backport always raises, the exception propagates uncaught, and
so any treatment with at least one linked document aborts on the first
one, before any payload is assembled and before any record is created. -/
theorem treatment_first_document_aborts (env : Env) (id : String) (db : DB)
    (rec : TreatRec) (d : String) (ds : List String)
    (h1 : getRec env.treatRecs id = some rec)
    (h2 : find_by_upstream db.treatments (treatment_candidates rec) = none)
    (h3 : rec.documents = d :: ds) :
    treatment env id db = (Except.error (Err.nameError "rec"), db) := by
  unfold treatment
  simp [h1, h2, h3, docLoop, document]

/-- Witness for `treatment_first_document_aborts`. -/
theorem treatment_first_document_aborts_witness :
    treatment envT "u-t6" dbT = (Except.error (Err.nameError "rec"), dbT) :=
  treatment_first_document_aborts envT "u-t6" dbT trecT6 "doc1" [] rfl rfl rfl

/-- Claim C8 (counterexample): the treatment term resolver succeeds on a
completely empty Pulsar database — no parent ontology lookup exists in
it at all — and the record it creates carries only `name` and
`accession`, with no category field of any kind. -/
theorem treatment_term_name_creates_without_category :
    treatment_term_name "estradiol" "CHEBI:23965" ({} : DB) =
      (⟨1, [("name", PVal.vs "estradiol"),
            ("accession", PVal.vs "CHEBI:23965")]⟩,
       { ttns := [⟨1, [("name", PVal.vs "estradiol"),
                       ("accession", PVal.vs "CHEBI:23965")]⟩],
         nextId := 2 }) ∧
    ({} : DB).ontologies = [] :=
  ⟨rfl, rfl⟩

/-- The payload of a freshly created `BiosampleTermName` record. -/
def btnPayload (n tid : String) (oid : Nat) : List (String × PVal) :=
  [("name", PVal.vs n), (ACCESSION_PROP, PVal.vs tid),
   ("biosample_ontology_id", PVal.vn oid)]

/-- The payload of a freshly created `TreatmentTermName` record. -/
def ttnPayload (n tid : String) : List (String × PVal) :=
  [("name", PVal.vs n), (ACCESSION_PROP, PVal.vs tid)]

/-- Claim C8 (amended): the biosample variant consults the parent
ontology (selected by the prefix of the term id before the first `:`)
before anything else — a missing parent fails the call even when a
matching term already exists — and creates, on an accession miss, a
record with `{name, accession, biosample_ontology_id}`; the treatment
variant performs no parent lookup at all and creates `{name, accession}`;
both variants return an existing accession match without creating. -/
theorem term_resolver_behavior :
    (∀ (n tid : String) (db : DB),
      find_by_str db.ontologies "name" ((pySplit tid ':').headD "") = none →
      biosample_term_name n tid db =
        (Except.error (Err.typeError "NoneType is not subscriptable"), db)) ∧
    (∀ (n tid : String) (db : DB) (o r : TRec),
      find_by_str db.ontologies "name" ((pySplit tid ':').headD "") = some o →
      find_by_str db.btns ACCESSION_PROP tid = some r →
      biosample_term_name n tid db = (Except.ok r, db)) ∧
    (∀ (n tid : String) (db : DB) (o : TRec),
      find_by_str db.ontologies "name" ((pySplit tid ':').headD "") = some o →
      find_by_str db.btns ACCESSION_PROP tid = none →
      biosample_term_name n tid db =
        (Except.ok (TRec.mk db.nextId (btnPayload n tid o.id)),
         { db with btns := db.btns ++ [TRec.mk db.nextId (btnPayload n tid o.id)],
                   nextId := db.nextId + 1 })) ∧
    (∀ (n tid : String) (db : DB) (r : TRec),
      find_by_str db.ttns ACCESSION_PROP tid = some r →
      treatment_term_name n tid db = (r, db)) ∧
    (∀ (n tid : String) (db : DB),
      find_by_str db.ttns ACCESSION_PROP tid = none →
      treatment_term_name n tid db =
        (TRec.mk db.nextId (ttnPayload n tid),
         { db with ttns := db.ttns ++ [TRec.mk db.nextId (ttnPayload n tid)],
                   nextId := db.nextId + 1 })) := by
  refine ⟨?_, ?_, ?_, ?_, ?_⟩
  · intro n tid db h
    rw [List.headD_eq_head?] at h
    unfold biosample_term_name
    simp [h]
  · intro n tid db o r h1 h2
    rw [List.headD_eq_head?] at h1
    unfold biosample_term_name
    simp [h1, h2]
  · intro n tid db o h1 h2
    rw [List.headD_eq_head?] at h1
    unfold biosample_term_name
    simp [h1, h2, btnPayload]
  · intro n tid db r h
    unfold treatment_term_name
    simp [h]
  · intro n tid db h
    unfold treatment_term_name
    simp [h, ttnPayload]

/-- Witness for `term_resolver_behavior`. -/
theorem term_resolver_behavior_witness :
    treatment_term_name "ethanol" "CHEBI:16236" ({} : DB) =
      (⟨1, [("name", PVal.vs "ethanol"), (ACCESSION_PROP, PVal.vs "CHEBI:16236")]⟩,
       { ttns := [⟨1, [("name", PVal.vs "ethanol"),
                       (ACCESSION_PROP, PVal.vs "CHEBI:16236")]⟩],
         nextId := 2 }) :=
  term_resolver_behavior.2.2.2.2 "ethanol" "CHEBI:16236" {} rfl

/-- Claim C9 (code bug evidence): for a record carrying only a `uuid`,
the source's `elif rec[UUID_PROP] in rec` tests the uuid *value* for
membership among the record's keys, which fails, so `set_name` raises
instead of returning the uuid; the uuid is returned only in the freak
case where its value coincides with a key of the record. -/
theorem set_name_uuid_branch_never_returns_uuid :
    set_name [("uuid", Val.str "7e1c2a")] = Except.error (Err.exn "cant set name") ∧
    set_name [("uuid", Val.str "uuid")] = Except.ok "uuid" :=
  ⟨rfl, rfl⟩

/-- Claim C10: whenever the treatment search misses, the create branch
raises before `models.Treatment.post` on line 327 can run — every path
either fails earlier (document backport, missing concentration unit,
missing `temperature_units`) or reaches the name assignment on line 326,
whose `upstream` variable is never assigned — so the Treatment table is
left exactly as it was and no Treatment record is ever created by this
procedure. -/
theorem treatment_miss_never_creates (env : Env) (id : String) (db : DB)
    (rec : TreatRec)
    (h1 : getRec env.treatRecs id = some rec)
    (h2 : find_by_upstream db.treatments (treatment_candidates rec) = none) :
    (∃ e, (treatment env id db).1 = Except.error e) ∧
    (treatment env id db).2.treatments = db.treatments := by
  unfold treatment
  simp only [h1, h2]
  cases hds : rec.documents with
  | cons d ds => exact ⟨⟨Err.nameError "rec", rfl⟩, rfl⟩
  | nil =>
    simp only [docLoop]
    cases hcu : find_by_str db.concUnits "name" rec.amount_units with
    | none => exact ⟨⟨_, rfl⟩, rfl⟩
    | some cu =>
      cases ht : tempStep rec with
      | error e => exact ⟨⟨e, rfl⟩, rfl⟩
      | ok tf =>
        have httn := ttn_treatments_eq rec.treatment_term_name rec.treatment_term_id db
        cases hp : treatment_term_name rec.treatment_term_name rec.treatment_term_id db with
        | mk ttnRec db2 =>
          rw [hp] at httn
          exact ⟨⟨Err.nameError "upstream", rfl⟩, httn⟩

/-- Witness for `treatment_miss_never_creates`. -/
theorem treatment_miss_never_creates_witness :
    (∃ e, (treatment envT "u-t1" dbT).1 = Except.error e) ∧
    (treatment envT "u-t1" dbT).2.treatments = dbT.treatments :=
  treatment_miss_never_creates envT "u-t1" dbT trecT rfl rfl

/-- Claim C4 (counterexample): the biosample created for `bioRecB`
carries `upstream_identifier = "ENCBS1"`, the accession, even though the
first candidate identifier of the search list is the alias `"lab:b1"`. -/
theorem biosample_upstream_not_first_candidate :
    ((biosample envB "b1" dbB).1.toOption.map (fun r => fieldOf r UPSTREAM_PROP)) =
      some (some (PVal.vs "ENCBS1")) ∧
    (biosample_candidates bioRecB).head? = some "lab:b1" ∧
    ("ENCBS1" : String) ≠ "lab:b1" :=
  ⟨rfl, rfl, by decide⟩

/-- Claim C4 (amended): the `upstream_identifier` written into a creation
payload is, per entity: the accession for Biosample (not the leading
alias of its candidate list), the `@id` for Vendor (not its leading
`name` candidate), and the accession for Donor — which does coincide
with the head of Donor's own (accession-first) candidate list. -/
theorem create_payload_upstream_values :
    (∀ (env : Env) (rec : BioRec) (db : DB) (pr : TRec) (db2 : DB),
      biosample_create env rec db = (Except.ok pr, db2) →
      fieldOf pr UPSTREAM_PROP = some (PVal.vs rec.accession)) ∧
    (∀ (env : Env) (id : String) (db : DB) (rec : VendorRec) (r : TRec) (db2 : DB),
      getRec env.vendorRecs id = some rec →
      find_by_upstream db.vendors (vendor_candidates rec) = none →
      vendor env id db = (Except.ok r, db2) →
      fieldOf r UPSTREAM_PROP = some (PVal.vs rec.atId)) ∧
    (∀ (env : Env) (id : String) (db : DB) (rec : DonorRec) (r : TRec) (db2 : DB),
      getRec env.donorRecs id = some rec →
      find_by_upstream db.donors (donor_candidates rec) = none →
      donor env id db = (Except.ok r, db2) →
      fieldOf r UPSTREAM_PROP = some (PVal.vs rec.accession) ∧
      (donor_candidates rec).head? = some rec.accession) := by
  refine ⟨?_, ?_, ?_⟩
  · intro env rec db pr db2 h
    unfold biosample_create at h
    cases hsn : set_name (bioNameRec rec) with
    | error e => simp only [hsn] at h; simp at h
    | ok nm =>
    simp only [hsn] at h
    cases hbtn : biosample_term_name rec.biosample_term_name rec.biosample_term_id db with
    | mk b1 db1 =>
    simp only [hbtn] at h
    cases b1 with
    | error e => simp at h
    | ok btnRec =>
    cases hbt : find_by_str db1.biosampleTypes "name" rec.biosample_type with
    | none => simp only [hbt] at h; simp at h
    | some bt =>
    simp only [hbt] at h
    cases hdn : donor env rec.donor db1 with
    | mk d1 dbd =>
    simp only [hdn] at h
    cases d1 with
    | error e => simp at h
    | ok dRec =>
    cases hvn : vendor env rec.source dbd with
    | mk v1 db3 =>
    simp only [hvn] at h
    cases v1 with
    | error e => simp at h
    | ok vRec =>
    cases htl : treatLoop env rec.treatments db3 with
    | mk t1 db4 =>
    simp only [htl] at h
    cases t1 with
    | error e => simp at h
    | ok tids =>
    simp only [Prod.mk.injEq, Except.ok.injEq] at h
    obtain ⟨hpr, -⟩ := h
    subst hpr
    rfl
  · intro env id db rec r db2 hget hmiss h
    unfold vendor at h
    simp only [hget, hmiss] at h
    simp only [Prod.mk.injEq, Except.ok.injEq] at h
    obtain ⟨hr, -⟩ := h
    subst hr
    rfl
  · intro env id db rec r db2 hget hmiss h
    unfold donor at h
    simp only [hget, hmiss] at h
    refine ⟨?_, rfl⟩
    cases ha : rec.aliases with
    | nil => simp only [ha] at h; simp at h
    | cons a0 rest =>
      simp only [ha] at h
      simp only [Prod.mk.injEq, Except.ok.injEq] at h
      obtain ⟨hr, -⟩ := h
      subst hr
      cases rec.age <;> cases rec.sex <;> rfl

/-- Witness for `create_payload_upstream_values`: a donor created on an
empty database. -/
theorem create_payload_upstream_values_witness :
    fieldOf ⟨1, [("upstream_identifier", PVal.vs "ENCDO9"),
                 ("name", PVal.vs "d9")]⟩ UPSTREAM_PROP =
      some (PVal.vs "ENCDO9") ∧
    (donor_candidates donorRecW).head? = some "ENCDO9" :=
  create_payload_upstream_values.2.2 envW "d9" {} donorRecW
    ⟨1, [("upstream_identifier", PVal.vs "ENCDO9"), ("name", PVal.vs "d9")]⟩
    { donors := [⟨1, [("upstream_identifier", PVal.vs "ENCDO9"),
                      ("name", PVal.vs "d9")]⟩], nextId := 2 }
    rfl rfl rfl

/-- Claim C7 (counterexample): a biosample with two linked CRISPR
genetic modifications fails with exactly the same unconditional
"not implemented" error as one with a single CRISPR modification — no
multiplicity check distinguishes the two — and by then the Biosample
record itself has already been posted; no CrisprModification record
exists in either case. -/
theorem crispr_multiplicity_not_detected :
    (biosample envB "b2" dbB).1 =
      Except.error (Err.exn "CRISPR backport not implemented") ∧
    (biosample envB "b3" dbB).1 =
      Except.error (Err.exn "CRISPR backport not implemented") ∧
    (biosample envB "b2" dbB).2.crisprs = [] ∧
    (biosample envB "b2" dbB).2.biosamples.length = 1 :=
  ⟨rfl, rfl, rfl, rfl⟩

/-- Claim C7 (amended): `crispr_modification` raises unconditionally and
never writes anything; the genetic-modification pass never changes the
database; the first CRISPR-method modification aborts the pass with the
unconditional error regardless of how many follow; and whatever the pass
returns, the biosample procedure has already committed the database state
of the create step — the posted Biosample stays. -/
theorem crispr_gm_unconditional_failure :
    (∀ (bioId : Nat) (gm : GmRec) (db : DB),
      crispr_modification bioId gm db =
        (Except.error (Err.exn "CRISPR backport not implemented"), db)) ∧
    (∀ (env : Env) (bioId : Nat) (gms : List String) (db : DB),
      (gmLoop env bioId gms db).2 = db) ∧
    (∀ (env : Env) (bioId : Nat) (g : String) (gs : List String) (db : DB)
       (gm : GmRec),
      getRec env.gmRecs g = some gm → gm.method = "CRISPR" →
      gmLoop env bioId (g :: gs) db =
        (Except.error (Err.exn "CRISPR backport not implemented"), db)) ∧
    (∀ (env : Env) (id : String) (db : DB) (rec : BioRec) (pr : TRec) (db2 : DB),
      getRec env.bioRecs id = some rec →
      find_by_upstream db.biosamples (biosample_candidates rec) = none →
      biosample_create env rec db = (Except.ok pr, db2) →
      (biosample env id db).2 = db2) := by
  refine ⟨fun bioId gm db => rfl, gmLoop_db_eq, ?_, ?_⟩
  · intro env bioId g gs db gm hget hm
    unfold gmLoop
    simp [hget, hm, crispr_modification]
  · intro env id db rec pr db2 hget hmiss hcreate
    unfold biosample
    simp only [hget, hmiss, hcreate]
    have h2 := gmLoop_db_eq env pr.id rec.genetic_modifications db2
    cases hgm : gmLoop env pr.id rec.genetic_modifications db2 with
    | mk fst snd =>
      rw [hgm] at h2
      cases fst <;> simpa using h2

/-- Witness for `crispr_gm_unconditional_failure`. -/
theorem crispr_gm_unconditional_failure_witness :
    gmLoop envB 7 ["gm1", "gm2"] dbT =
      (Except.error (Err.exn "CRISPR backport not implemented"), dbT) :=
  crispr_gm_unconditional_failure.2.2.1 envB 7 "gm1" ["gm2"] dbT
    ⟨"gm1", "CRISPR"⟩ rfl rfl

end Pulsarpy
